import Mathlib

/-!
# Cgroup accessors of `bpf/lib/bpf_cgroup.h`

A shallow embedding of the helpers of `bpf_cgroup.h`.  Kernel memory is a
snapshot that maps a base pointer and a field to the stored value, or to
nothing when the access is invalid.  Every helper returns its C return value
together with the list of memory accesses it performed, in program order.
Pointers are natural numbers, `NULL` is `0`; a read copies `sz` bytes, so its
value is taken modulo `2 ^ (8 * sz)`.

The specification leaves the destination of a faulting read undefined, so the
reader takes what is left there as a separate argument, the residue.  The
kernel helper behind `probe_read` clears the destination when the read fails;
that reader is `zeroResidue`.  The code tests destinations and never the
status of `probe_read`, so the properties of its failure paths are stated
for that helper, and the properties that do not depend on what a failing read
leaves are stated for every residue.
-/

namespace BpfCgroup

/-- The null pointer, `#define NULL ((void *)0)`. -/
def NULL : Nat := 0

/-- Fields of kernel structures that the helpers read through
`_(&base->field)`. -/
inductive Field where
  /-- Field `task_struct.cgroups`. -/
  | task_cgroups
  /-- Field `css_set.subsys[i]`. -/
  | css_set_subsys (i : Nat)
  /-- Field `cgroup_subsys_state.cgroup`. -/
  | css_cgroup
  /-- Field `cgroup.kn`. -/
  | cgroup_kn
  /-- Field `cgroup.root`. -/
  | cgroup_root
  /-- Field `cgroup_root.hierarchy_id`. -/
  | root_hierarchy_id
  /-- Field `kernfs_node.name`. -/
  | kn_name
  /-- Field `kernfs_node.id`, the scalar identifier of kernels from 5.5 on -/
  | kn_id
  /-- Field `kernfs_node___old.id.id`, the identifier nested in
  `union kernfs_node_id` of kernels up to 5.4 -/
  | kn_old_id_id
  deriving DecidableEq, Repr

/-- One memory access: the base pointer and the field read through it. -/
structure Access where
  base : Nat
  field : Field
  deriving DecidableEq, Repr

/-- A snapshot of kernel memory: `load base field` is the value stored in
`base->field`, or `none` when the address is not readable. -/
structure Mem where
  load : Nat → Field → Option Nat

/-- What a faulting read leaves in its destination buffer.  The specification
leaves the contents undefined, so they are supplied from outside the memory
snapshot, as a function of the access that faulted.  A residue describes the
leftovers of one call; two calls are only ever compared under `zeroResidue`,
where every destination is cleared. -/
abbrev Residue := Access → Nat

/-- The residue of the kernel helper which the program calls as `probe_read`:
on a failed read it clears the destination. -/
def zeroResidue : Residue := fun _ => 0

/-- The value of a `sz`-byte object whose stored number is `v`. -/
def wrap (sz v : Nat) : Nat := v % 2 ^ (8 * sz)

/-- An access faults when it goes through the null pointer or when the
snapshot has nothing readable there. -/
def faults (m : Mem) (a : Access) : Bool :=
  a.base == 0 || (m.load a.base a.field).isNone

/-- The `sz` bytes stored at `base->field`; `0` where nothing is readable. -/
def stored (m : Mem) (sz base : Nat) (f : Field) : Nat :=
  wrap sz ((m.load base f).getD 0)

/-- Result of one read: the status the helper returns and the contents of the
destination buffer after the call. -/
structure ReadResult where
  status : Int
  dst : Nat
  deriving DecidableEq, Repr

/-- Modelled from the spec: `probe_read(dst, size, src)` of `bpf_helpers.h` is
not part of the sources at hand; it is the SafeMemoryReader of the
specification.  It copies exactly `sz` bytes from `base->field` and returns `0`,
or returns a negative status on an invalid access, in which case the
destination buffer holds whatever `u` says: nothing but `0` with
`zeroResidue`, the helper that clears it. -/
def probe_read (m : Mem) (u : Residue) (sz base : Nat) (f : Field) : ReadResult :=
  if faults m ⟨base, f⟩ then ⟨-14, wrap sz (u ⟨base, f⟩)⟩
  else ⟨0, stored m sz base f⟩

/-- A value returned by a helper, with the accesses performed to compute it. -/
structure Out (α : Type) where
  val : α
  reads : List Access
  deriving DecidableEq, Repr

/-- Result of a chained CO-RE read: final status, destination contents, and
the accesses performed. -/
structure Chain where
  status : Int
  dst : Nat
  reads : List Access
  deriving DecidableEq, Repr

/-- Modelled from the spec: `BPF_CORE_READ_INTO(dst, src, a, ..., z)` of
`bpf_core_read.h` is not part of the sources at hand.  It walks the chain in one
traversal, each step a SafeMemoryReader read: every accessor but the last is
read into a pointer-sized temporary which becomes the base of the next step,
and the last accessor is read into the `sz`-byte destination.  The
specification asks that a failure anywhere in the chain is a failure of the
chain.  With the helper that clears its destination this is what the walk
gives: a failed step leaves a null temporary, every later step reads through
null and fails, and the final status is non-zero
(`chain_fails_after_fault`). -/
def BPF_CORE_READ_INTO (m : Mem) (u : Residue) (sz src : Nat) :
    List Field → Field → Chain
  | [], z =>
    let r := probe_read m u sz src z
    ⟨r.status, r.dst, [⟨src, z⟩]⟩
  | a :: rest, z =>
    let t := (probe_read m u 8 src a).dst
    let c := BPF_CORE_READ_INTO m u sz t rest z
    ⟨c.status, c.dst, ⟨src, a⟩ :: c.reads⟩

/-- Helper `__get_cgroup_kn_name(kn)`: `name = NULL; if (kn) probe_read(&name, ...)`. -/
def __get_cgroup_kn_name (m : Mem) (u : Residue) (kn : Nat) : Out Nat :=
  if kn ≠ 0 then
    ⟨(probe_read m u 8 kn Field.kn_name).dst, [⟨kn, Field.kn_name⟩]⟩
  else
    ⟨NULL, []⟩

/-- Helper `__get_cgroup_kn_id(kn)`.  `kernfs_node_id_exists` is the value of
`bpf_core_type_exists(union kernfs_node_id)`: true on kernels up to 5.4. -/
def __get_cgroup_kn_id (m : Mem) (u : Residue) (kernfs_node_id_exists : Bool)
    (kn : Nat) : Out Nat :=
  if kn = 0 then
    ⟨0, []⟩
  else if !kernfs_node_id_exists then
    ⟨(probe_read m u 8 kn Field.kn_id).dst, [⟨kn, Field.kn_id⟩]⟩
  else
    let c := BPF_CORE_READ_INTO m u 8 kn [] Field.kn_old_id_id
    if c.status ≠ 0 then ⟨0, c.reads⟩ else ⟨c.dst, c.reads⟩

/-- Helper `__get_cgroup_kn(cgrp)`: `kn = NULL; if (cgrp) probe_read(&kn, ...)`. -/
def __get_cgroup_kn (m : Mem) (u : Residue) (cgrp : Nat) : Out Nat :=
  if cgrp ≠ 0 then
    ⟨(probe_read m u 8 cgrp Field.cgroup_kn).dst, [⟨cgrp, Field.cgroup_kn⟩]⟩
  else
    ⟨NULL, []⟩

/-- Helper `get_cgroup_hierarchy_id(cgrp)`: the `__u32` destination is returned
whatever the status of the chained read. -/
def get_cgroup_hierarchy_id (m : Mem) (u : Residue) (cgrp : Nat) : Out Nat :=
  let c := BPF_CORE_READ_INTO m u 4 cgrp [Field.cgroup_root] Field.root_hierarchy_id
  ⟨c.dst, c.reads⟩

/-- Helper `get_cgroup_name(cgrp)`: a null `cgrp` gives `NULL`; otherwise
the chain `cgrp`, `kn`, `name` is read and `NULL` returned on a non-zero status. -/
def get_cgroup_name (m : Mem) (u : Residue) (cgrp : Nat) : Out Nat :=
  if cgrp = 0 then
    ⟨NULL, []⟩
  else
    let c := BPF_CORE_READ_INTO m u 8 cgrp [Field.cgroup_kn] Field.kn_name
    if c.status ≠ 0 then ⟨NULL, c.reads⟩ else ⟨c.dst, c.reads⟩

/-- Helper `get_cgroup_id(cgrp)`: `kn = __get_cgroup_kn(cgrp); return __get_cgroup_kn_id(kn)`. -/
def get_cgroup_id (m : Mem) (u : Residue) (kernfs_node_id_exists : Bool)
    (cgrp : Nat) : Out Nat :=
  let kn := __get_cgroup_kn m u cgrp
  let id := __get_cgroup_kn_id m u kernfs_node_id_exists kn.val
  ⟨id.val, kn.reads ++ id.reads⟩

/-- Helper `get_task_cgroup(task, subsys_idx)`.  `pids_cgrp_id` is the enumerator of
the kernel headers the program is built against; `subsys_idx` is a `__u32` and
is only compared and used as an index, so the number itself is taken.  None of
the three `probe_read` statuses is looked at: the tests are on the
destinations `cgroups` and `subsys`. -/
def get_task_cgroup (m : Mem) (u : Residue) (pids_cgrp_id : Nat)
    (task subsys_idx : Nat) : Out Nat :=
  let cgroups := (probe_read m u 8 task Field.task_cgroups).dst
  if cgroups = 0 then
    ⟨NULL, [⟨task, Field.task_cgroups⟩]⟩
  else if subsys_idx > pids_cgrp_id then
    ⟨NULL, [⟨task, Field.task_cgroups⟩]⟩
  else
    let subsys := (probe_read m u 8 cgroups (Field.css_set_subsys subsys_idx)).dst
    if subsys = 0 then
      ⟨NULL, [⟨task, Field.task_cgroups⟩, ⟨cgroups, Field.css_set_subsys subsys_idx⟩]⟩
    else
      ⟨(probe_read m u 8 subsys Field.css_cgroup).dst,
        [⟨task, Field.task_cgroups⟩, ⟨cgroups, Field.css_set_subsys subsys_idx⟩,
          ⟨subsys, Field.css_cgroup⟩]⟩

/-! ## Definitions used to state the properties -/

/-- The field that holds the node identifier in the layout selected by
`bpf_core_type_exists(union kernfs_node_id)`. -/
def idField (kernfs_node_id_exists : Bool) : Field :=
  if kernfs_node_id_exists then Field.kn_old_id_id else Field.kn_id

/-- Reference definition of the resolver, written from the specification:
read the controller-set reference of the task, fail if it is null; fail if the
controller index is above the largest known index; read
`perController[controllerIndex]`, fail if it is null; return the cgroup
reference stored in that controller state. -/
def resolve_ref (m : Mem) (max_known_controller_index task controllerIndex : Nat) : Nat :=
  let controllerSet := stored m 8 task Field.task_cgroups
  if controllerSet = 0 then NULL
  else if controllerIndex > max_known_controller_index then NULL
  else
    let perControllerState := stored m 8 controllerSet (Field.css_set_subsys controllerIndex)
    if perControllerState = 0 then NULL
    else stored m 8 perControllerState Field.css_cgroup

/-- The accesses of the reference resolver, in order: the controller-set
reference; then, if it is non-null and the index is in range, the entry
`perController[controllerIndex]`; then, if that is non-null, its cgroup. -/
def resolve_ref_reads (m : Mem) (max_known_controller_index task controllerIndex : Nat) :
    List Access :=
  let controllerSet := stored m 8 task Field.task_cgroups
  if controllerSet = 0 then [⟨task, Field.task_cgroups⟩]
  else if controllerIndex > max_known_controller_index then [⟨task, Field.task_cgroups⟩]
  else
    let perControllerState := stored m 8 controllerSet (Field.css_set_subsys controllerIndex)
    if perControllerState = 0 then
      [⟨task, Field.task_cgroups⟩, ⟨controllerSet, Field.css_set_subsys controllerIndex⟩]
    else
      [⟨task, Field.task_cgroups⟩, ⟨controllerSet, Field.css_set_subsys controllerIndex⟩,
        ⟨perControllerState, Field.css_cgroup⟩]

/-- Two snapshots hold the same contents at every access of the list. -/
def AgreeOn (m m' : Mem) (l : List Access) : Prop :=
  ∀ a ∈ l, m'.load a.base a.field = m.load a.base a.field

instance (m m' : Mem) (l : List Access) : Decidable (AgreeOn m m' l) := by
  unfold AgreeOn
  infer_instance

/-- One resolution as the event pipeline runs it: `get_task_cgroup`, then
`get_cgroup_id`, `get_cgroup_name` and `get_cgroup_hierarchy_id` on its
result.  The value is the triple (id, name reference, hierarchy id). -/
def resolve_identity (m : Mem) (u : Residue) (kernfs_node_id_exists : Bool)
    (pids_cgrp_id task subsys_idx : Nat) : Out (Nat × Nat × Nat) :=
  let c := get_task_cgroup m u pids_cgrp_id task subsys_idx
  let i := get_cgroup_id m u kernfs_node_id_exists c.val
  let n := get_cgroup_name m u c.val
  let h := get_cgroup_hierarchy_id m u c.val
  ⟨(i.val, n.val, h.val), c.reads ++ (i.reads ++ (n.reads ++ h.reads))⟩

/-! ## Concrete snapshots -/

/-- Scenario A of the specification: task `100` has controller set `200`,
whose entry `0` is the controller state `300` of cgroup `400`; the cgroup has
node `500` (identifier `42` in either layout, name pointer `600`) and root
`700` with hierarchy id `0`. -/
def scenarioA : Mem where
  load := fun b f =>
    match b, f with
    | 100, Field.task_cgroups => some 200
    | 200, Field.css_set_subsys 0 => some 300
    | 300, Field.css_cgroup => some 400
    | 400, Field.cgroup_kn => some 500
    | 400, Field.cgroup_root => some 700
    | 500, Field.kn_name => some 600
    | 500, Field.kn_id => some 42
    | 500, Field.kn_old_id_id => some 42
    | 700, Field.root_hierarchy_id => some 0
    | _, _ => none

/-- A cgroup `400` whose node pointer `500` is readable while nothing behind
the node is: every read through `500` faults. -/
def faultyNode : Mem where
  load := fun b f =>
    match b, f with
    | 400, Field.cgroup_kn => some 500
    | _, _ => none

/-- A task `100` whose controller set `200` has, at the last known index
`12`, the controller state `300` of cgroup `400`. -/
def lastIndexTask : Mem where
  load := fun b f =>
    match b, f with
    | 100, Field.task_cgroups => some 200
    | 200, Field.css_set_subsys 12 => some 300
    | 300, Field.css_cgroup => some 400
    | _, _ => none

/-- A cgroup `400` of a named hierarchy: node `500` with identifier `42` and
name pointer `600`, root `700` with hierarchy id `5`. -/
def namedHierarchy : Mem where
  load := fun b f =>
    match b, f with
    | 400, Field.cgroup_kn => some 500
    | 400, Field.cgroup_root => some 700
    | 500, Field.kn_name => some 600
    | 500, Field.kn_id => some 42
    | 700, Field.root_hierarchy_id => some 5
    | _, _ => none

/-- Scenario A on a kernel of the Modern layout: as `scenarioA`, but node `500`
has no nested `id.id`. -/
def scenarioA_modern : Mem where
  load := fun b f =>
    match b, f with
    | 100, Field.task_cgroups => some 200
    | 200, Field.css_set_subsys 0 => some 300
    | 300, Field.css_cgroup => some 400
    | 400, Field.cgroup_kn => some 500
    | 400, Field.cgroup_root => some 700
    | 500, Field.kn_name => some 600
    | 500, Field.kn_id => some 42
    | 700, Field.root_hierarchy_id => some 0
    | _, _ => none

/-- Scenario D, Modern side: node `500` whose scalar `id` field holds `7`. -/
def modernNode7 : Mem where
  load := fun b f =>
    match b, f with
    | 500, Field.kn_id => some 7
    | _, _ => none

/-- Scenario D, Legacy side: node `500` whose nested `id.id` holds `7`. -/
def legacyNode7 : Mem where
  load := fun b f =>
    match b, f with
    | 500, Field.kn_old_id_id => some 7
    | _, _ => none

/-- Residue that leaves the same number `g` in every destination. -/
def constResidue (g : Nat) : Residue := fun _ => g

/-! ## Basic facts about the read primitive -/

theorem probe_read_of_ok (m : Mem) (u : Residue) (sz base : Nat) (f : Field)
    (h : faults m ⟨base, f⟩ = false) :
    probe_read m u sz base f = ⟨0, stored m sz base f⟩ := by
  simp [probe_read, h]

theorem probe_read_of_fault (m : Mem) (u : Residue) (sz base : Nat) (f : Field)
    (h : faults m ⟨base, f⟩ = true) :
    probe_read m u sz base f = ⟨-14, wrap sz (u ⟨base, f⟩)⟩ := by
  simp [probe_read, h]

theorem faults_null (m : Mem) (f : Field) : faults m ⟨0, f⟩ = true := by
  simp [faults]

theorem stored_of_load (m : Mem) (sz base v : Nat) (f : Field)
    (h : m.load base f = some v) (hv : v < 2 ^ (8 * sz)) :
    stored m sz base f = v := by
  simp [stored, wrap, h, Nat.mod_eq_of_lt hv]

/-! ## Properties of the helpers -/

/-- C1: for every task, snapshot, residue and every `subsys_idx` above
`pids_cgrp_id`, `get_task_cgroup` returns `NULL` and the only access it
performs is the read of `task->cgroups`. -/
theorem get_task_cgroup_above_bound (m : Mem) (u : Residue)
    (pids_cgrp_id task subsys_idx : Nat) (h : subsys_idx > pids_cgrp_id) :
    get_task_cgroup m u pids_cgrp_id task subsys_idx
      = ⟨NULL, [⟨task, Field.task_cgroups⟩]⟩ := by
  unfold get_task_cgroup
  by_cases hc : (probe_read m u 8 task Field.task_cgroups).dst = 0
  · simp [hc]
  · simp [hc, h]

theorem get_task_cgroup_above_bound_witness :
    (99 : Nat) > 12 ∧
      get_task_cgroup scenarioA zeroResidue 12 100 99
        = ⟨NULL, [⟨100, Field.task_cgroups⟩]⟩ :=
  ⟨by decide, get_task_cgroup_above_bound scenarioA zeroResidue 12 100 99 (by decide)⟩

/-- C9: on a null cgroup `__get_cgroup_kn` returns `NULL`, `get_cgroup_id`
returns `0` and `get_cgroup_name` returns `NULL`; on a null node
`__get_cgroup_kn_name` returns `NULL` and `__get_cgroup_kn_id` returns `0`;
each of them with an empty list of accesses, for every snapshot, residue and
layout. -/
theorem null_inputs_no_read (m : Mem) (u : Residue) (kernfs_node_id_exists : Bool) :
    __get_cgroup_kn m u NULL = ⟨NULL, []⟩ ∧
    get_cgroup_id m u kernfs_node_id_exists NULL = ⟨0, []⟩ ∧
    get_cgroup_name m u NULL = ⟨NULL, []⟩ ∧
    __get_cgroup_kn_name m u NULL = ⟨NULL, []⟩ ∧
    __get_cgroup_kn_id m u kernfs_node_id_exists NULL = ⟨0, []⟩ := by
  refine ⟨?_, ?_, ?_, ?_, ?_⟩
  · simp [__get_cgroup_kn, NULL]
  · simp [get_cgroup_id, __get_cgroup_kn, __get_cgroup_kn_id, NULL]
  · simp [get_cgroup_name, NULL]
  · simp [__get_cgroup_kn_name, NULL]
  · simp [__get_cgroup_kn_id, NULL]

/-- C5: layout equivalence of `__get_cgroup_kn_id`.  For a 64-bit value `v`
and a non-null node, a Modern snapshot whose scalar `id` field holds `v`
(decoded when `union kernfs_node_id` does not exist) and a Legacy snapshot whose
nested `id.id` holds `v` (decoded when the union exists) both decode to `v`. -/
theorem kn_id_layout_equivalence (mModern mLegacy : Mem) (u u' : Residue) (kn v : Nat)
    (hkn : kn ≠ 0) (hv : v < 2 ^ 64)
    (hModern : mModern.load kn Field.kn_id = some v)
    (hLegacy : mLegacy.load kn Field.kn_old_id_id = some v) :
    (__get_cgroup_kn_id mModern u false kn).val = v ∧
    (__get_cgroup_kn_id mLegacy u' true kn).val = v := by
  have f1 : faults mModern ⟨kn, Field.kn_id⟩ = false := by
    simp [faults, hkn, hModern]
  have f2 : faults mLegacy ⟨kn, Field.kn_old_id_id⟩ = false := by
    simp [faults, hkn, hLegacy]
  have s1 := stored_of_load mModern 8 kn v Field.kn_id hModern (by simpa using hv)
  have s2 := stored_of_load mLegacy 8 kn v Field.kn_old_id_id hLegacy (by simpa using hv)
  constructor
  · simp [__get_cgroup_kn_id, hkn, probe_read_of_ok _ _ _ _ _ f1, s1]
  · simp [__get_cgroup_kn_id, hkn, BPF_CORE_READ_INTO, probe_read_of_ok _ _ _ _ _ f2, s2]

theorem kn_id_layout_equivalence_witness :
    (__get_cgroup_kn_id modernNode7 (constResidue 1) false 500).val = 7 ∧
    (__get_cgroup_kn_id legacyNode7 (constResidue 2) true 500).val = 7 :=
  kn_id_layout_equivalence modernNode7 legacyNode7 (constResidue 1) (constResidue 2) 500 7
    (by decide) (by decide) rfl rfl

theorem wrap_zero (sz : Nat) : wrap sz 0 = 0 := by
  simp [wrap]

theorem probe_read_cleared (m : Mem) (sz base : Nat) (f : Field)
    (h : faults m ⟨base, f⟩ = true) :
    probe_read m zeroResidue sz base f = ⟨-14, 0⟩ := by
  simp [probe_read, h, zeroResidue, wrap_zero]

theorem probe_read_agree (m m' : Mem) (u : Residue) (sz base : Nat) (f : Field)
    (h : m'.load base f = m.load base f) :
    probe_read m' u sz base f = probe_read m u sz base f := by
  simp [probe_read, faults, stored, h]

/-- With the helper that clears its destination, a chain entered through the
null pointer fails and leaves zero, however long it is. -/
theorem chain_through_null (m : Mem) (sz : Nat) (path : List Field) (z : Field) :
    (BPF_CORE_READ_INTO m zeroResidue sz 0 path z).status = -14 ∧
    (BPF_CORE_READ_INTO m zeroResidue sz 0 path z).dst = 0 := by
  induction path with
  | nil => simp [BPF_CORE_READ_INTO, probe_read_cleared m sz 0 z (faults_null m z)]
  | cons a rest ih =>
    simpa [BPF_CORE_READ_INTO, probe_read_cleared m 8 0 a (faults_null m a)] using ih

/-- With the helper that clears its destination, a chain whose first step
faults fails as a whole: the status is non-zero and the destination is zero. -/
theorem chain_fails_after_fault (m : Mem) (sz src : Nat) (a : Field) (rest : List Field)
    (z : Field) (h : faults m ⟨src, a⟩ = true) :
    (BPF_CORE_READ_INTO m zeroResidue sz src (a :: rest) z).status = -14 ∧
    (BPF_CORE_READ_INTO m zeroResidue sz src (a :: rest) z).dst = 0 := by
  simpa [BPF_CORE_READ_INTO, probe_read_cleared m 8 src a h]
    using chain_through_null m sz rest z

theorem task_read_mem (m : Mem) (u : Residue) (pids_cgrp_id task subsys_idx : Nat) :
    (⟨task, Field.task_cgroups⟩ : Access)
      ∈ (get_task_cgroup m u pids_cgrp_id task subsys_idx).reads := by
  unfold get_task_cgroup
  simp only []
  split_ifs <;> simp

/-- C2: on a snapshot where the addresses the resolution goes through are
readable (`task->cgroups`; `cgroups->subsys[idx]` when the controller set is
non-null and `idx ≤ pids_cgrp_id`; `subsys->cgroup` when that entry is
non-null), `get_task_cgroup` returns the pointer of the reference definition
`resolve_ref` and performs exactly its accesses.  The read of
`cgroups->subsys[idx]` is performed exactly when the controller set is
non-null and `idx ≤ pids_cgrp_id`: no index of the inclusive range is
rejected. -/
theorem get_task_cgroup_refines_resolve_ref (m : Mem) (u : Residue)
    (pids_cgrp_id task subsys_idx : Nat)
    (h1 : faults m ⟨task, Field.task_cgroups⟩ = false)
    (h2 : stored m 8 task Field.task_cgroups ≠ 0 → subsys_idx ≤ pids_cgrp_id →
      faults m ⟨stored m 8 task Field.task_cgroups, Field.css_set_subsys subsys_idx⟩
        = false)
    (h3 : stored m 8 task Field.task_cgroups ≠ 0 → subsys_idx ≤ pids_cgrp_id →
      stored m 8 (stored m 8 task Field.task_cgroups) (Field.css_set_subsys subsys_idx) ≠ 0 →
      faults m ⟨stored m 8 (stored m 8 task Field.task_cgroups)
        (Field.css_set_subsys subsys_idx), Field.css_cgroup⟩ = false) :
    get_task_cgroup m u pids_cgrp_id task subsys_idx
      = ⟨resolve_ref m pids_cgrp_id task subsys_idx,
          resolve_ref_reads m pids_cgrp_id task subsys_idx⟩ ∧
    ((⟨stored m 8 task Field.task_cgroups, Field.css_set_subsys subsys_idx⟩ : Access)
        ∈ (get_task_cgroup m u pids_cgrp_id task subsys_idx).reads
      ↔ (stored m 8 task Field.task_cgroups ≠ 0 ∧ subsys_idx ≤ pids_cgrp_id)) := by
  unfold get_task_cgroup resolve_ref resolve_ref_reads
  simp only [probe_read_of_ok m u 8 task Field.task_cgroups h1]
  by_cases hc : stored m 8 task Field.task_cgroups = 0
  · simp [hc]
  · by_cases hi : subsys_idx > pids_cgrp_id
    · simp [hc, hi]
    · have hi' : subsys_idx ≤ pids_cgrp_id := by omega
      have e2 := probe_read_of_ok m u 8 _ _ (h2 hc hi')
      simp only [hc, hi, if_false, e2]
      by_cases hs : stored m 8 (stored m 8 task Field.task_cgroups)
          (Field.css_set_subsys subsys_idx) = 0
      · simp [hs, hc, hi']
      · have e3 := probe_read_of_ok m u 8 _ _ (h3 hc hi' hs)
        simp [hs, hc, hi', e3]

theorem get_task_cgroup_refines_resolve_ref_witness :
    get_task_cgroup lastIndexTask (constResidue 9) 12 100 12
      = ⟨400, [⟨100, Field.task_cgroups⟩, ⟨200, Field.css_set_subsys 12⟩,
          ⟨300, Field.css_cgroup⟩]⟩ ∧
    ((⟨200, Field.css_set_subsys 12⟩ : Access)
        ∈ (get_task_cgroup lastIndexTask (constResidue 9) 12 100 12).reads
      ↔ ((200 : Nat) ≠ 0 ∧ 12 ≤ 12)) :=
  get_task_cgroup_refines_resolve_ref lastIndexTask (constResidue 9) 12 100 12
    (by decide) (by decide) (by decide)

/-- C8: on a snapshot where `c->kn`, the identifier and the name of the node
`c->kn` points to, `c->root` and the `hierarchy_id` of the root `c->root`
points to are readable (so `c`, the node and the root are non-null), the
accessors return the stored fields and read nothing else: `get_cgroup_id` the
node identifier of the active layout, `get_cgroup_name` the name pointer
stored in the node, `get_cgroup_hierarchy_id` the `hierarchy_id` stored in
the root. -/
theorem accessors_return_stored_fields (m : Mem) (u : Residue)
    (kernfs_node_id_exists : Bool) (c : Nat)
    (hkn : faults m ⟨c, Field.cgroup_kn⟩ = false)
    (hid : faults m ⟨stored m 8 c Field.cgroup_kn, idField kernfs_node_id_exists⟩ = false)
    (hname : faults m ⟨stored m 8 c Field.cgroup_kn, Field.kn_name⟩ = false)
    (hroot : faults m ⟨c, Field.cgroup_root⟩ = false)
    (hhid : faults m ⟨stored m 8 c Field.cgroup_root, Field.root_hierarchy_id⟩ = false) :
    get_cgroup_id m u kernfs_node_id_exists c
      = ⟨stored m 8 (stored m 8 c Field.cgroup_kn) (idField kernfs_node_id_exists),
          [⟨c, Field.cgroup_kn⟩,
            ⟨stored m 8 c Field.cgroup_kn, idField kernfs_node_id_exists⟩]⟩ ∧
    get_cgroup_name m u c
      = ⟨stored m 8 (stored m 8 c Field.cgroup_kn) Field.kn_name,
          [⟨c, Field.cgroup_kn⟩, ⟨stored m 8 c Field.cgroup_kn, Field.kn_name⟩]⟩ ∧
    get_cgroup_hierarchy_id m u c
      = ⟨stored m 4 (stored m 8 c Field.cgroup_root) Field.root_hierarchy_id,
          [⟨c, Field.cgroup_root⟩,
            ⟨stored m 8 c Field.cgroup_root, Field.root_hierarchy_id⟩]⟩ := by
  have hc : c ≠ 0 := by
    intro hz
    rw [hz, faults_null] at hkn
    exact absurd hkn (by decide)
  have hn : stored m 8 c Field.cgroup_kn ≠ 0 := by
    intro hz
    rw [hz, faults_null] at hname
    exact absurd hname (by decide)
  have ekn := probe_read_of_ok m u 8 c Field.cgroup_kn hkn
  have eroot := probe_read_of_ok m u 8 c Field.cgroup_root hroot
  refine ⟨?_, ?_, ?_⟩
  · cases kernfs_node_id_exists
    · simp [idField] at hid ⊢
      simp [get_cgroup_id, __get_cgroup_kn, __get_cgroup_kn_id, hc, hn, ekn,
        probe_read_of_ok m u 8 _ _ hid]
    · simp [idField] at hid ⊢
      simp [get_cgroup_id, __get_cgroup_kn, __get_cgroup_kn_id, BPF_CORE_READ_INTO, hc, hn,
        ekn, probe_read_of_ok m u 8 _ _ hid]
  · simp [get_cgroup_name, BPF_CORE_READ_INTO, hc, ekn, probe_read_of_ok m u 8 _ _ hname]
  · simp [get_cgroup_hierarchy_id, BPF_CORE_READ_INTO, eroot,
      probe_read_of_ok m u 4 _ _ hhid]

theorem accessors_return_stored_fields_witness :
    (get_cgroup_id scenarioA (constResidue 9) false 400
        = ⟨42, [⟨400, Field.cgroup_kn⟩, ⟨500, Field.kn_id⟩]⟩ ∧
      get_cgroup_name scenarioA (constResidue 9) 400
        = ⟨600, [⟨400, Field.cgroup_kn⟩, ⟨500, Field.kn_name⟩]⟩ ∧
      get_cgroup_hierarchy_id scenarioA (constResidue 9) 400
        = ⟨0, [⟨400, Field.cgroup_root⟩, ⟨700, Field.root_hierarchy_id⟩]⟩) ∧
    (get_cgroup_id namedHierarchy (constResidue 9) false 400
        = ⟨42, [⟨400, Field.cgroup_kn⟩, ⟨500, Field.kn_id⟩]⟩ ∧
      get_cgroup_name namedHierarchy (constResidue 9) 400
        = ⟨600, [⟨400, Field.cgroup_kn⟩, ⟨500, Field.kn_name⟩]⟩ ∧
      get_cgroup_hierarchy_id namedHierarchy (constResidue 9) 400
        = ⟨5, [⟨400, Field.cgroup_root⟩, ⟨700, Field.root_hierarchy_id⟩]⟩) :=
  ⟨accessors_return_stored_fields scenarioA (constResidue 9) false 400
      (by decide) (by decide) (by decide) (by decide) (by decide),
    accessors_return_stored_fields namedHierarchy (constResidue 9) false 400
      (by decide) (by decide) (by decide) (by decide) (by decide)⟩

theorem get_task_cgroup_agree (m m' : Mem) (u : Residue)
    (pids_cgrp_id task subsys_idx : Nat)
    (h : AgreeOn m m' (get_task_cgroup m u pids_cgrp_id task subsys_idx).reads) :
    get_task_cgroup m' u pids_cgrp_id task subsys_idx
      = get_task_cgroup m u pids_cgrp_id task subsys_idx := by
  have e1 : probe_read m' u 8 task Field.task_cgroups
      = probe_read m u 8 task Field.task_cgroups :=
    probe_read_agree m m' u 8 task Field.task_cgroups
      (h ⟨task, Field.task_cgroups⟩ (task_read_mem m u pids_cgrp_id task subsys_idx))
  unfold get_task_cgroup at h ⊢
  simp only [e1]
  by_cases hc : (probe_read m u 8 task Field.task_cgroups).dst = 0
  · simp [hc]
  · by_cases hi : subsys_idx > pids_cgrp_id
    · simp [hc, hi]
    · simp only [hc, hi, if_false] at h ⊢
      have e2 : probe_read m' u 8 (probe_read m u 8 task Field.task_cgroups).dst
            (Field.css_set_subsys subsys_idx)
          = probe_read m u 8 (probe_read m u 8 task Field.task_cgroups).dst
            (Field.css_set_subsys subsys_idx) :=
        probe_read_agree m m' u 8 _ _
          (h ⟨(probe_read m u 8 task Field.task_cgroups).dst,
            Field.css_set_subsys subsys_idx⟩ (by split_ifs <;> simp))
      simp only [e2]
      by_cases hs : (probe_read m u 8 (probe_read m u 8 task Field.task_cgroups).dst
          (Field.css_set_subsys subsys_idx)).dst = 0
      · simp [hs]
      · simp only [hs, if_false] at h ⊢
        have e3 := probe_read_agree m m' u 8 _ _
          (h ⟨(probe_read m u 8 (probe_read m u 8 task Field.task_cgroups).dst
            (Field.css_set_subsys subsys_idx)).dst, Field.css_cgroup⟩ (by simp))
        simp only [e3]

theorem get_cgroup_id_agree (m m' : Mem) (u : Residue)
    (kernfs_node_id_exists : Bool) (cgrp : Nat)
    (h : AgreeOn m m' (get_cgroup_id m u kernfs_node_id_exists cgrp).reads) :
    get_cgroup_id m' u kernfs_node_id_exists cgrp
      = get_cgroup_id m u kernfs_node_id_exists cgrp := by
  by_cases hc : cgrp = 0
  · simp [get_cgroup_id, __get_cgroup_kn, __get_cgroup_kn_id, hc, NULL]
  · have e1 := probe_read_agree m m' u 8 cgrp Field.cgroup_kn
      (h ⟨cgrp, Field.cgroup_kn⟩ (by simp [get_cgroup_id, __get_cgroup_kn, hc]))
    by_cases hk : (probe_read m u 8 cgrp Field.cgroup_kn).dst = 0
    · simp [get_cgroup_id, __get_cgroup_kn, __get_cgroup_kn_id, hc, e1, hk]
    · cases kernfs_node_id_exists
      · have e2 := probe_read_agree m m' u 8 _ _
          (h ⟨(probe_read m u 8 cgrp Field.cgroup_kn).dst, Field.kn_id⟩
            (by simp [get_cgroup_id, __get_cgroup_kn, __get_cgroup_kn_id, hc, hk]))
        simp [get_cgroup_id, __get_cgroup_kn, __get_cgroup_kn_id, hc, e1, hk, e2]
      · have e2 := probe_read_agree m m' u 8 _ _
          (h ⟨(probe_read m u 8 cgrp Field.cgroup_kn).dst, Field.kn_old_id_id⟩
            (by simp [get_cgroup_id, __get_cgroup_kn, __get_cgroup_kn_id, BPF_CORE_READ_INTO,
              hc, hk, apply_ite Out.reads]))
        simp [get_cgroup_id, __get_cgroup_kn, __get_cgroup_kn_id, BPF_CORE_READ_INTO, hc, e1,
          hk, e2]

theorem get_cgroup_name_agree (m m' : Mem) (u : Residue) (cgrp : Nat)
    (h : AgreeOn m m' (get_cgroup_name m u cgrp).reads) :
    get_cgroup_name m' u cgrp = get_cgroup_name m u cgrp := by
  by_cases hc : cgrp = 0
  · simp [get_cgroup_name, hc]
  · have e1 := probe_read_agree m m' u 8 cgrp Field.cgroup_kn
      (h ⟨cgrp, Field.cgroup_kn⟩
        (by simp [get_cgroup_name, BPF_CORE_READ_INTO, hc, apply_ite Out.reads]))
    have e2 := probe_read_agree m m' u 8 _ _
      (h ⟨(probe_read m u 8 cgrp Field.cgroup_kn).dst, Field.kn_name⟩
        (by simp [get_cgroup_name, BPF_CORE_READ_INTO, hc, apply_ite Out.reads]))
    simp [get_cgroup_name, BPF_CORE_READ_INTO, hc, e1, e2]

theorem get_cgroup_hierarchy_id_agree (m m' : Mem) (u : Residue) (cgrp : Nat)
    (h : AgreeOn m m' (get_cgroup_hierarchy_id m u cgrp).reads) :
    get_cgroup_hierarchy_id m' u cgrp = get_cgroup_hierarchy_id m u cgrp := by
  have e1 := probe_read_agree m m' u 8 cgrp Field.cgroup_root
    (h ⟨cgrp, Field.cgroup_root⟩ (by simp [get_cgroup_hierarchy_id, BPF_CORE_READ_INTO]))
  have e2 := probe_read_agree m m' u 4 _ _
    (h ⟨(probe_read m u 8 cgrp Field.cgroup_root).dst, Field.root_hierarchy_id⟩
      (by simp [get_cgroup_hierarchy_id, BPF_CORE_READ_INTO]))
  simp [get_cgroup_hierarchy_id, BPF_CORE_READ_INTO, e1, e2]

end BpfCgroup
